import Mathlib

/-!
Verification development for the `ecomarine-streamlit` repository, page
`src/pages/marine.py` ("East African Fish Migration Tracker").

The page's algorithmic core is embedded shallowly:

* `generate_east_african_data` mirrors the synthetic-data generator
  (lines 51-167 of `marine.py`).  The numpy global RNG, once seeded, is a
  deterministic stream of unit draws; we model it as a function
  `u : Nat -> Rat` giving the i-th unit sample, consumed in the exact order
  the source draws them (school lats, school lons, confidences, species
  choices, base lats, base lons, speeds, per-record direction base and
  jitter, timestamp backdating).  `np.random.uniform(lo, hi)` is
  `lo + (hi - lo) * u_i`, faithful to numpy also when `lo > hi`.
  Real-valued trigonometry is kept abstract in a `TrigModel` parameter so
  that the development stays executable; floats are modelled by exact
  rationals.
* Wall-clock state (`pd.Timestamp.now()`) is an explicit `Clock` argument
  carrying the month (which selects the monsoon season) and a time value
  in minutes.
* `direction_to_cardinal`, the filter block (lines 216-226), the
  per-species average-speed block (475-481) and the dominant-direction
  block (484-493, built on `pd.cut` with eight 45-degree bins) are
  embedded directly.
* The sqlite3 transaction wrapping the bulk write is modelled by a small
  connection state machine (`Conn`, `applyStep`, `rollback`) reflecting
  sqlite semantics: statements act on the in-transaction state, readers
  see only the committed state, `commit` publishes, `rollback` discards.
-/

/-- Species list hard-coded in the generator (marine.py lines 81-84). -/
def east_african_species : List String :=
  ["Yellowfin Tuna", "Kingfish", "Black Marlin", "Sailfish",
   "Dorado", "Barracuda", "Skipjack Tuna", "Wahoo"]

/-- Abstract model of the real-valued trigonometry used by the source
(`np.sin`, `np.cos`, and the constant pi used by `np.radians`). -/
structure TrigModel where
  pi : ℚ
  sin : ℚ → ℚ
  cos : ℚ → ℚ

/-- Degrees-to-radians conversion, `np.radians d = d * pi / 180`. -/
def TrigModel.radians (t : TrigModel) (d : ℚ) : ℚ := d * t.pi / 180

/-- Ambient wall-clock state read by the generator via
`pd.Timestamp.now()`: the calendar month (drives the seasonal pattern)
and the current time, in minutes. -/
structure Clock where
  month : Nat
  time : ℚ
deriving DecidableEq

/-- Model of `np.random.uniform(lo, hi)` applied to one unit draw `x`:
`lo + (hi - lo) * x`.  Matches numpy also when `lo > hi` (numpy simply
interpolates backwards, it does not wrap). -/
def unif (lo hi x : ℚ) : ℚ := lo + (hi - lo) * x

/-- Python's float modulo on exact rationals: `x % m = x - m * ⌊x / m⌋`. -/
def pymod (x m : ℚ) : ℚ := x - m * (⌊x / m⌋ : ℤ)

/-- Row of the `fish_schools` table produced by the generator. -/
structure FishSchool where
  lat : ℚ
  lon : ℚ
  confidence : ℚ
deriving DecidableEq

/-- Row of the `migrations` table produced by the generator.  The
`timestamp` field holds the backdated time in minutes (the source
serialises it with `isoformat`, an injective rendering). -/
structure Migration where
  species : String
  latitude : ℚ
  longitude : ℚ
  speed : ℚ
  direction : ℚ
  target_latitude : ℚ
  target_longitude : ℚ
  timestamp : ℚ
deriving DecidableEq

/-- All fields of a migration row except the timestamp. -/
structure MigrationCore where
  species : String
  latitude : ℚ
  longitude : ℚ
  speed : ℚ
  direction : ℚ
  target_latitude : ℚ
  target_longitude : ℚ
deriving DecidableEq

/-- Projection dropping the timestamp field. -/
def Migration.core (m : Migration) : MigrationCore :=
  ⟨m.species, m.latitude, m.longitude, m.speed, m.direction,
   m.target_latitude, m.target_longitude⟩

/-- Species-dependent speed draw (marine.py lines 101-110): tuna species
draw from [4,7], marlin and sailfish from [6,10], wahoo from [5,8], the
rest from [2,5]. -/
def speedFor (s : String) (x : ℚ) : ℚ :=
  if s = "Yellowfin Tuna" ∨ s = "Skipjack Tuna" then unif 4 7 x
  else if s = "Black Marlin" ∨ s = "Sailfish" then unif 6 10 x
  else if s = "Wahoo" then unif 5 8 x
  else unif 2 5 x

/-- Season- and species-dependent base heading draw (marine.py lines
112-133).  Months 1-3 are the northeast monsoon, months 6-9 the
southeast monsoon, anything else a transition period.  Note that
`np.random.uniform(330, 30)` interpolates backwards (values in (30,330]),
exactly as numpy does. -/
def baseDirection (month : Nat) (s : String) (x : ℚ) : ℚ :=
  if 1 ≤ month ∧ month ≤ 3 then
    if s = "Yellowfin Tuna" ∨ s = "Skipjack Tuna" ∨ s = "Dorado" then unif 150 210 x
    else if s = "Kingfish" ∨ s = "Barracuda" then unif 120 240 x
    else unif 90 270 x
  else if 6 ≤ month ∧ month ≤ 9 then
    if s = "Black Marlin" ∨ s = "Sailfish" ∨ s = "Wahoo" then unif 330 30 x
    else if s = "Yellowfin Tuna" ∨ s = "Kingfish" then unif 300 60 x
    else unif 270 90 x
  else unif 0 360 x

/-- The i-th fish-school row: three uniform draws (lats first, then lons,
then confidences, as the source draws whole vectors at a time).  `S` is
the number of school rows in the batch. -/
def mkSchool (u : Nat → ℚ) (S i : Nat) : FishSchool :=
  { lat := unif (-15) 5 (u i)
    lon := unif 39 45 (u (S + i))
    confidence := unif 50 100 (u (2 * S + i)) }

/-- Species of the i-th migration row, modelling
`np.random.choice(east_african_species, migrations_count)`: one unit draw
selects an index into the 8-element species list. -/
def speciesAt (u : Nat → ℚ) (S i : Nat) : String :=
  east_african_species.getD (⌊8 * u (3 * S + i)⌋).toNat ""

/-- Origin latitude of the i-th migration row, `np.random.uniform(-15, 5)`. -/
def base_lat (u : Nat → ℚ) (S M i : Nat) : ℚ := unif (-15) 5 (u (3 * S + M + i))

/-- Origin longitude of the i-th migration row, `np.random.uniform(39, 45)`. -/
def base_lon (u : Nat → ℚ) (S M i : Nat) : ℚ := unif 39 45 (u (3 * S + 2 * M + i))

/-- Speed of the i-th migration row (one uniform draw through the
species-dependent band). -/
def speedAt (u : Nat → ℚ) (S M i : Nat) : ℚ :=
  speedFor (speciesAt u S i) (u (3 * S + 3 * M + i))

/-- Heading of the i-th migration row: base seasonal draw plus uniform
jitter in [-20, 20], then `% 360` (marine.py line 136). -/
def directionAt (u : Nat → ℚ) (month S M i : Nat) : ℚ :=
  pymod (baseDirection month (speciesAt u S i) (u (3 * S + 4 * M + 2 * i)) +
         unif (-20) 20 (u (3 * S + 4 * M + 2 * i + 1))) 360

/-- Backdating in minutes for the i-th timestamp, modelling
`np.random.randint(0, 120)`: one unit draw scaled to [0, 120) and
floored. -/
def minutesBack (u : Nat → ℚ) (S M i : Nat) : ℚ :=
  ((⌊120 * u (3 * S + 6 * M + i)⌋).toNat : ℚ)

/-- The i-th migration row of a batch (marine.py lines 94-156).  The
target position offsets the origin by `delta = speed / 20` along the
heading; the timestamp backdates the shared batch `now` reference. -/
def mkMigration (t : TrigModel) (u : Nat → ℚ) (clock : Clock) (S M i : Nat) : Migration :=
  { species := speciesAt u S i
    latitude := base_lat u S M i
    longitude := base_lon u S M i
    speed := speedAt u S M i
    direction := directionAt u clock.month S M i
    target_latitude := base_lat u S M i +
      speedAt u S M i / 20 * t.sin (t.radians (directionAt u clock.month S M i))
    target_longitude := base_lon u S M i +
      speedAt u S M i / 20 * t.cos (t.radians (directionAt u clock.month S M i))
    timestamp := clock.time - minutesBack u S M i }

/-- Failure mode of the generator observable in the source: numpy raises
`ValueError` ("negative dimensions are not allowed") when a sample count
is negative.  The source performs no count validation of its own. -/
inductive GenError where
  | valueError
deriving DecidableEq

/-- The generator `generate_east_african_data(schools_count,
migrations_count)` (marine.py lines 51-167) as a function of the trig
model, the seeded RNG stream `u`, the wall clock, and the two counts.
A count of zero yields empty vectors (numpy accepts size 0); a negative
count makes the first numpy sampling call raise `ValueError`. -/
def generate_east_african_data (t : TrigModel) (u : Nat → ℚ) (clock : Clock)
    (schools_count migrations_count : ℤ) :
    Except GenError (List FishSchool × List Migration) :=
  if schools_count < 0 then Except.error GenError.valueError
  else if migrations_count < 0 then Except.error GenError.valueError
  else Except.ok
    ((List.range schools_count.toNat).map (mkSchool u schools_count.toNat),
     (List.range migrations_count.toNat).map
       (mkMigration t u clock schools_count.toNat migrations_count.toNat))

/-- Concrete trig model used for evaluation witnesses. -/
def t0 : TrigModel := ⟨0, fun _ => 0, fun _ => 0⟩

/-- Concrete RNG stream used for evaluation witnesses. -/
def u0 : Nat → ℚ := fun _ => 0

/-- Concrete clock (January, minute 0) used for evaluation witnesses. -/
def clock0 : Clock := ⟨1, 0⟩

/-- The batch produced by `generate_east_african_data` at the concrete
witness parameters with one school and one migration. -/
def B0 : List FishSchool × List Migration :=
  ((List.range 1).map (mkSchool u0 1),
   (List.range 1).map (mkMigration t0 u0 clock0 1 1))

/-- The single migration row of the witness batch `B0`. -/
def M0 : Migration := mkMigration t0 u0 clock0 1 1 0

theorem generate_B0 : generate_east_african_data t0 u0 clock0 1 1 = Except.ok B0 := rfl

theorem M0_mem_B0 : M0 ∈ B0.2 := by
  show M0 ∈ (List.range 1).map (mkMigration t0 u0 clock0 1 1)
  simp [M0]

/-- Python's built-in `round` (round-half-to-even, as used on the float
`direction / 22.5` at marine.py line 362), on exact rationals. -/
def pyRound (q : ℚ) : ℤ :=
  if q - (⌊q⌋ : ℚ) < 1 / 2 then ⌊q⌋
  else if 1 / 2 < q - (⌊q⌋ : ℚ) then ⌊q⌋ + 1
  else if ⌊q⌋ % 2 = 0 then ⌊q⌋ else ⌊q⌋ + 1

/-- The 16 compass labels of `direction_to_cardinal` (marine.py lines
360-361). -/
def cardinals : List String :=
  ["N", "NNE", "NE", "ENE", "E", "ESE", "SE", "SSE",
   "S", "SSW", "SW", "WSW", "W", "WNW", "NW", "NNW"]

/-- The helper `direction_to_cardinal` (marine.py lines 359-363):
`cardinals[round(direction / 22.5) % 16]`. -/
def direction_to_cardinal (direction : ℚ) : String :=
  cardinals.getD ((pyRound (direction / 22.5)) % 16).toNat "N"

theorem pyRound_add_int (q : ℚ) (n : ℤ) (hn : n % 2 = 0) :
    pyRound (q + (n : ℚ)) = pyRound q + n := by
  have hf : ⌊q + (n : ℚ)⌋ = ⌊q⌋ + n := Int.floor_add_int q n
  have hsub : q + (n : ℚ) - ((⌊q + (n : ℚ)⌋ : ℤ) : ℚ) = q - (⌊q⌋ : ℚ) := by
    rw [hf]; push_cast; ring
  have hpar : ⌊q + (n : ℚ)⌋ % 2 = ⌊q⌋ % 2 := by rw [hf]; omega
  unfold pyRound
  rw [hsub, hpar, hf]
  split_ifs <;> omega

theorem pymod_nonneg (x m : ℚ) (hm : 0 < m) : 0 ≤ pymod x m := by
  have h1 : ((⌊x / m⌋ : ℤ) : ℚ) ≤ x / m := Int.floor_le _
  have h2 : ((⌊x / m⌋ : ℤ) : ℚ) * m ≤ x := (le_div_iff₀ hm).mp h1
  unfold pymod
  nlinarith

theorem pymod_lt (x m : ℚ) (hm : 0 < m) : pymod x m < m := by
  have h1 : x / m < ((⌊x / m⌋ : ℤ) : ℚ) + 1 := Int.lt_floor_add_one _
  have h2 : x < (((⌊x / m⌋ : ℤ) : ℚ) + 1) * m := (div_lt_iff₀ hm).mp h1
  unfold pymod
  nlinarith

/-- The eight coarse labels used by the dominant-direction statistic
(marine.py line 491). -/
def cut_labels : List String :=
  ["N-NE", "NE-E", "E-SE", "SE-S", "S-SW", "SW-W", "W-NW", "NW-N"]

/-- Bin assignment of `pd.cut(direction, bins=[0,45,...,360])` at
marine.py lines 489-491: right-closed intervals `(45*i, 45*(i+1)]`;
values outside `(0, 360]` get no bin (pandas NaN). -/
def cutBin (d : ℚ) : Option Nat :=
  if 0 < d ∧ d ≤ 45 then some 0
  else if 45 < d ∧ d ≤ 90 then some 1
  else if 90 < d ∧ d ≤ 135 then some 2
  else if 135 < d ∧ d ≤ 180 then some 3
  else if 180 < d ∧ d ≤ 225 then some 4
  else if 225 < d ∧ d ≤ 270 then some 5
  else if 270 < d ∧ d ≤ 315 then some 6
  else if 315 < d ∧ d ≤ 360 then some 7
  else none

/-- Occurrences of bin `i` among the surviving directions. -/
def binCount (dirs : List ℚ) (i : Nat) : Nat :=
  dirs.countP (fun d => decide (cutBin d = some i))

/-- Largest bin occupancy, over the eight bins. -/
def maxBinCount (dirs : List ℚ) : Nat :=
  ((List.range 8).map (binCount dirs)).foldr max 0

/-- The dominant-direction statistic `direction_bins.mode()[0]`
(marine.py line 492): pandas `mode` on a categorical returns the
categories of maximal count in category (= bin) order, so `[0]` is the
lowest-index bin attaining the maximal count; with every direction
outside `(0, 360]` (all NaN) the mode is empty and `[0]` raises,
modelled as `none`. -/
def dominant_direction (dirs : List ℚ) : Option String :=
  if maxBinCount dirs = 0 then none
  else ((List.range 8).find? (fun i => decide (binCount dirs i = maxBinCount dirs))).map
    (fun i => cut_labels.getD i "")

/-- The species/time filter applied to migrations (marine.py lines
220-226): with a non-empty species selection both predicates apply,
otherwise only the time-window predicate does. -/
def filtered_migrations (records : List Migration) (selected : List String)
    (latest : ℚ) : List Migration :=
  if selected ≠ [] then
    records.filter (fun r => decide (r.species ∈ selected) && decide (latest ≤ r.timestamp))
  else
    records.filter (fun r => decide (latest ≤ r.timestamp))

/-- The per-species average-speed statistic (marine.py lines 477-481):
the mean is computed and displayed only when the species' surviving
subset is non-empty; otherwise the statistic is skipped (`none`). -/
def avg_speed (records : List Migration) (sp : String) : Option ℚ :=
  if (records.filter (fun r => decide (r.species = sp))).isEmpty then none
  else some (((records.filter (fun r => decide (r.species = sp))).map (fun r => r.speed)).sum /
             ((records.filter (fun r => decide (r.species = sp))).length : ℚ))

/-- Contents of the marine store (the two tables of `marine_data.db`). -/
structure Store where
  fish : List FishSchool
  migs : List Migration
deriving DecidableEq

/-- Sqlite connection state during the generator's write: `committed` is
what concurrent readers see, `txn` is the in-transaction working state. -/
structure Conn where
  committed : Store
  txn : Store
deriving DecidableEq

/-- Statements the generator issues inside its transaction (marine.py
lines 62-158): the two DELETEs (grouped as one clearing step), the
row inserts performed by `executemany`, and the final `conn.commit()`. -/
inductive GStep where
  | clearAll
  | insertFish (r : FishSchool)
  | insertMig (r : Migration)
  | commitTxn
deriving DecidableEq

/-- Effect of one statement on the connection, per sqlite transaction
semantics: data statements act on the in-transaction state only;
`commit` publishes the in-transaction state. -/
def applyStep (c : Conn) : GStep → Conn
  | GStep.clearAll => { c with txn := ⟨[], []⟩ }
  | GStep.insertFish r => { c with txn := ⟨c.txn.fish ++ [r], c.txn.migs⟩ }
  | GStep.insertMig r => { c with txn := ⟨c.txn.fish, c.txn.migs ++ [r]⟩ }
  | GStep.commitTxn => { c with committed := c.txn }

/-- `BEGIN TRANSACTION` on a store in state `s`. -/
def beginTxn (s : Store) : Conn := ⟨s, s⟩

/-- `conn.rollback()`, as invoked by both `except` handlers (marine.py
lines 160-167): the in-transaction changes are discarded. -/
def rollback (c : Conn) : Conn := ⟨c.committed, c.committed⟩

/-- Run a sequence of statements on a connection. -/
def runSteps (c : Conn) (steps : List GStep) : Conn := steps.foldl applyStep c

/-- The statement sequence of one generation call writing the given
batch: clear both tables, insert every row, commit. -/
def genScript (schools : List FishSchool) (migs : List Migration) : List GStep :=
  [GStep.clearAll] ++ schools.map GStep.insertFish ++ migs.map GStep.insertMig ++
    [GStep.commitTxn]

/-- Store visible after a generation call whose statement at index `k`
raises: the statements before `k` ran, the exception handler rolls the
transaction back, and readers see the committed state. -/
def runWithFailure (s : Store) (steps : List GStep) (k : Nat) : Store :=
  (rollback (runSteps (beginTxn s) (steps.take k))).committed

theorem le_foldr_max (l : List Nat) (x : Nat) (hx : x ∈ l) : x ≤ l.foldr max 0 := by
  induction l with
  | nil => cases hx
  | cons a l ih =>
    rcases List.mem_cons.mp hx with h | h
    · subst h; exact le_max_left _ _
    · exact le_trans (ih h) (le_max_right _ _)

theorem foldr_max_le (l : List Nat) (b : Nat) (h : ∀ x ∈ l, x ≤ b) :
    l.foldr max 0 ≤ b := by
  induction l with
  | nil => exact Nat.zero_le b
  | cons a l ih =>
    simp only [List.foldr]
    exact max_le (h a (List.mem_cons_self a l)) (ih fun x hx => h x (List.mem_cons_of_mem a hx))

theorem find?_range'_first (p : Nat → Bool) :
    ∀ (n s i : Nat), s ≤ i → i < s + n → p i = true →
      (∀ j, s ≤ j → j < i → p j = false) → (List.range' s n).find? p = some i := by
  intro n
  induction n with
  | zero => intro s i h1 h2 _ _; omega
  | succ n ih =>
    intro s i h1 h2 hp hprev
    show (s :: List.range' (s + 1) n).find? p = some i
    by_cases hsi : i = s
    · subst hsi
      simp [List.find?, hp]
    · have hs : p s = false := hprev s le_rfl (by omega)
      simp only [List.find?, hs]
      exact ih (s + 1) i (by omega) (by omega) hp (fun j hj1 hj2 => hprev j (by omega) hj2)

theorem find?_range_first (p : Nat → Bool) (n i : Nat) (hi : i < n) (hp : p i = true)
    (hfirst : ∀ j, j < i → p j = false) : (List.range n).find? p = some i := by
  rw [List.range_eq_range']
  exact find?_range'_first p n 0 i (Nat.zero_le i) (by omega) hp (fun j _ hj => hfirst j hj)

theorem unif_mem (lo hi x : ℚ) (h : lo ≤ hi) (hx0 : 0 ≤ x) (hx1 : x ≤ 1) :
    lo ≤ unif lo hi x ∧ unif lo hi x ≤ hi := by
  unfold unif
  constructor <;> nlinarith

theorem speedFor_bounds (s : String) (x : ℚ) (hx0 : 0 ≤ x) (hx1 : x ≤ 1) :
    2 ≤ speedFor s x ∧ speedFor s x ≤ 10 := by
  unfold speedFor unif
  split_ifs <;> constructor <;> nlinarith

/-- Claim C3: for every heading, `direction_to_cardinal` returns the
label at index `round(heading / 22.5) mod 16` in the fixed 16-label
sequence starting at "N", and it is invariant under adding any integer
multiple of 360 degrees. -/
theorem cardinal_bucket_round_mod_and_periodic : ∀ hdg : ℚ,
    direction_to_cardinal hdg =
      cardinals.getD ((pyRound (hdg / 22.5)) % 16).toNat "N" ∧
    ∀ k : ℤ, direction_to_cardinal (hdg + 360 * (k : ℚ)) = direction_to_cardinal hdg := by
  intro hdg
  refine ⟨rfl, fun k => ?_⟩
  unfold direction_to_cardinal
  have harg : (hdg + 360 * (k : ℚ)) / 22.5 = hdg / 22.5 + ((16 * k : ℤ) : ℚ) := by
    push_cast
    field_simp
    ring
  rw [harg, pyRound_add_int _ _ (by omega), Int.add_mul_emod_self_left]

/-- Claim C5: filtering with an empty species subset returns exactly the
records passing the time-window predicate alone (and hence the same
record count as applying no species filter at all). -/
theorem empty_species_subset_passthrough (records : List Migration) (latest : ℚ) :
    filtered_migrations records [] latest =
      records.filter (fun r => decide (latest ≤ r.timestamp)) ∧
    (filtered_migrations records [] latest).length =
      (records.filter (fun r => decide (latest ≤ r.timestamp))).length := by
  constructor <;> rfl

/-- Claim C7, counterexample: on an empty record set the per-species
mean-speed statistic does not return 0 — the source skips the
computation entirely (no value), so the claimed `0` is never produced. -/
theorem avg_speed_empty_not_zero : avg_speed [] "Kingfish" ≠ some 0 := by decide

/-- Claim C7, amended: when the surviving per-species record set is
empty, the mean-speed statistic is skipped (no value is computed or
displayed); the operation is total, so it never raises or divides by
zero. -/
theorem avg_speed_empty_skipped (records : List Migration) (sp : String)
    (h : records.filter (fun r => decide (r.species = sp)) = []) :
    avg_speed records sp = none := by
  unfold avg_speed
  rw [h]
  rfl

theorem avg_speed_empty_skipped_witness : avg_speed [] "Kingfish" = none :=
  avg_speed_empty_skipped [] "Kingfish" rfl

/-- Claim C8, counterexample: a generation call with
`schools_count = 0` and `migrations_count = 0` (both ≤ 0) succeeds with
an empty batch instead of failing with an invalid-argument error — the
source validates neither count. -/
theorem generate_zero_counts_succeeds :
    generate_east_african_data t0 u0 clock0 0 0 = Except.ok ([], []) := rfl

/-- Claim C8, amended: a generation call with a strictly negative
`schools_count` or `migrations_count` fails with the `ValueError` raised
by numpy's sampler (zero counts succeed with an empty batch, as the
counterexample shows). -/
theorem generate_negative_counts_error (t : TrigModel) (u : Nat → ℚ) (clock : Clock)
    (S M : ℤ) (h : S < 0 ∨ M < 0) :
    generate_east_african_data t u clock S M = Except.error GenError.valueError := by
  unfold generate_east_african_data
  rcases h with h | h
  · rw [if_pos h]
  · by_cases h1 : S < 0
    · rw [if_pos h1]
    · rw [if_neg h1, if_pos h]

theorem generate_negative_counts_error_witness :
    generate_east_african_data t0 u0 clock0 (-1) 5 = Except.error GenError.valueError :=
  generate_negative_counts_error t0 u0 clock0 (-1) 5 (Or.inl (by norm_num))

/-- Claim C1, counterexample: two generator calls with identical
parameters (1, 1) and the identical seeded RNG stream, but made at two
different clock readings (minute 0 and minute 1 of the same month),
produce batches that differ record for record in the timestamp field —
generation is not a pure function of (inputs, seed) alone. -/
theorem generate_batch_depends_on_clock :
    (generate_east_african_data t0 u0 ⟨1, 0⟩ 1 1).toOption.map
        (fun b => b.2.map (fun m => m.timestamp)) ≠
    (generate_east_african_data t0 u0 ⟨1, 1⟩ 1 1).toOption.map
        (fun b => b.2.map (fun m => m.timestamp)) := by
  intro h
  have h1 := congrArg (fun o => (o.getD []).headD 37) h
  norm_num [generate_east_african_data, Except.toOption, mkMigration, minutesBack, u0,
    List.range_succ] at h1

/-- Claim C1, amended: two generator calls with identical parameters and
the same seeded RNG stream yield identical batches whenever they also
share the clock reading; if only the month (the seasonal mode) agrees,
the two batches still agree record for record on every field except the
timestamp, which follows the call-time "now" reference. -/
theorem generate_deterministic_given_clock_month (t : TrigModel) (u : Nat → ℚ)
    (c1 c2 : Clock) (S M : ℤ) (h : c1.month = c2.month) :
    Except.map (fun b => (b.1, b.2.map Migration.core))
        (generate_east_african_data t u c1 S M) =
    Except.map (fun b => (b.1, b.2.map Migration.core))
        (generate_east_african_data t u c2 S M) := by
  unfold generate_east_african_data
  split_ifs
  · rfl
  · rfl
  · have hcore : ∀ i, Migration.core (mkMigration t u c1 S.toNat M.toNat i) =
        Migration.core (mkMigration t u c2 S.toNat M.toNat i) := by
      intro i
      simp [mkMigration, Migration.core, h]
    simp only [Except.map, List.map_map, Function.comp_def, hcore]

theorem generate_deterministic_given_clock_month_witness :
    Except.map (fun b => (b.1, b.2.map Migration.core))
        (generate_east_african_data t0 u0 ⟨1, 0⟩ 1 1) =
    Except.map (fun b => (b.1, b.2.map Migration.core))
        (generate_east_african_data t0 u0 ⟨1, 5⟩ 1 1) :=
  generate_deterministic_given_clock_month t0 u0 ⟨1, 0⟩ ⟨1, 5⟩ 1 1 rfl

/-- Claim C2: every migration record of a generated batch places the
target at the origin offset by the speed-scaled vector at the record's
heading with delta = speed * (1/20): target latitude = latitude +
delta * sin(heading in radians) and target longitude = longitude +
delta * cos(heading in radians). -/
theorem target_position_offset (t : TrigModel) (u : Nat → ℚ) (clock : Clock) (S M : ℤ)
    (b : List FishSchool × List Migration)
    (hb : generate_east_african_data t u clock S M = Except.ok b) :
    ∀ m ∈ b.2,
      m.target_latitude = m.latitude + m.speed / 20 * t.sin (t.radians m.direction) ∧
      m.target_longitude = m.longitude + m.speed / 20 * t.cos (t.radians m.direction) := by
  unfold generate_east_african_data at hb
  split_ifs at hb
  simp only [Except.ok.injEq, reduceCtorEq] at hb
  subst hb
  intro m hm
  simp only [List.mem_map, List.mem_range] at hm
  obtain ⟨i, _, rfl⟩ := hm
  exact ⟨rfl, rfl⟩

theorem target_position_offset_witness :
    M0.target_latitude = M0.latitude + M0.speed / 20 * t0.sin (t0.radians M0.direction) ∧
    M0.target_longitude = M0.longitude + M0.speed / 20 * t0.cos (t0.radians M0.direction) :=
  target_position_offset t0 u0 clock0 1 1 B0 generate_B0 M0 M0_mem_B0

/-- Store range constraint on the direction column of the `migrations`
table (marine.py line 36): `direction BETWEEN 0 AND 360`. -/
def directionCheckOk (m : Migration) : Prop := 0 ≤ m.direction ∧ m.direction ≤ 360

/-- Claim C9: every heading the generator produces — season-dependent
base draw plus uniform jitter of ±20 degrees, then normalized by `% 360`
— lies in [0, 360), and in particular satisfies the store's direction
range constraint. -/
theorem generated_direction_in_range (t : TrigModel) (u : Nat → ℚ) (clock : Clock)
    (S M : ℤ) (b : List FishSchool × List Migration)
    (hb : generate_east_african_data t u clock S M = Except.ok b) :
    ∀ m ∈ b.2, (0 ≤ m.direction ∧ m.direction < 360) ∧ directionCheckOk m := by
  unfold generate_east_african_data at hb
  split_ifs at hb
  simp only [Except.ok.injEq, reduceCtorEq] at hb
  subst hb
  intro m hm
  simp only [List.mem_map, List.mem_range] at hm
  obtain ⟨i, _, rfl⟩ := hm
  have h1 : 0 ≤ (mkMigration t u clock S.toNat M.toNat i).direction :=
    pymod_nonneg _ _ (by norm_num)
  have h2 : (mkMigration t u clock S.toNat M.toNat i).direction < 360 :=
    pymod_lt _ _ (by norm_num)
  exact ⟨⟨h1, h2⟩, h1, le_of_lt h2⟩

theorem generated_direction_in_range_witness :
    (0 ≤ M0.direction ∧ M0.direction < 360) ∧ directionCheckOk M0 :=
  generated_direction_in_range t0 u0 clock0 1 1 B0 generate_B0 M0 M0_mem_B0

/-- Store range constraints on the target-coordinate columns of the
`migrations` table (marine.py lines 37-38): `target_latitude BETWEEN -90
AND 90` and `target_longitude BETWEEN -180 AND 180`. -/
def targetRangeOk (m : Migration) : Prop :=
  (-90 ≤ m.target_latitude ∧ m.target_latitude ≤ 90) ∧
  (-180 ≤ m.target_longitude ∧ m.target_longitude ≤ 180)

theorem offset_within (base sp tr lo hi : ℚ) (hb1 : lo ≤ base) (hb2 : base ≤ hi)
    (hsp1 : 2 ≤ sp) (hsp2 : sp ≤ 10) (ht1 : -1 ≤ tr) (ht2 : tr ≤ 1) :
    lo - 1 / 2 ≤ base + sp / 20 * tr ∧ base + sp / 20 * tr ≤ hi + 1 / 2 := by
  have h1 : 0 ≤ sp * (tr + 1) := mul_nonneg (by linarith) (by linarith)
  have h2 : 0 ≤ sp * (1 - tr) := mul_nonneg (by linarith) (by linarith)
  constructor <;> nlinarith [h1, h2]

/-- Claim C10: provided the RNG stream yields unit draws in [0, 1] and
the trig model is bounded by 1 in absolute value (as real sine and
cosine are), every generated migration's origin lies in the fixed
bounding box, its speed is at most 10, the offset magnitude is at most
1/2, and therefore the derived target coordinates satisfy the store's
target-coordinate range constraints — that failure branch is unreachable
for generated batches. -/
theorem generated_targets_within_store_bounds (t : TrigModel) (u : Nat → ℚ)
    (clock : Clock) (S M : ℤ) (b : List FishSchool × List Migration)
    (hu : ∀ i, 0 ≤ u i ∧ u i ≤ 1)
    (hsin : ∀ x, -1 ≤ t.sin x ∧ t.sin x ≤ 1)
    (hcos : ∀ x, -1 ≤ t.cos x ∧ t.cos x ≤ 1)
    (hb : generate_east_african_data t u clock S M = Except.ok b) :
    ∀ m ∈ b.2, targetRangeOk m := by
  unfold generate_east_african_data at hb
  split_ifs at hb
  simp only [Except.ok.injEq, reduceCtorEq] at hb
  subst hb
  intro m hm
  simp only [List.mem_map, List.mem_range] at hm
  obtain ⟨i, _, rfl⟩ := hm
  have hlat : -15 ≤ base_lat u S.toNat M.toNat i ∧ base_lat u S.toNat M.toNat i ≤ 5 :=
    unif_mem _ _ _ (by norm_num) (hu _).1 (hu _).2
  have hlon : 39 ≤ base_lon u S.toNat M.toNat i ∧ base_lon u S.toNat M.toNat i ≤ 45 :=
    unif_mem _ _ _ (by norm_num) (hu _).1 (hu _).2
  have hsp : 2 ≤ speedAt u S.toNat M.toNat i ∧ speedAt u S.toNat M.toNat i ≤ 10 :=
    speedFor_bounds _ _ (hu _).1 (hu _).2
  have hs := hsin (t.radians (directionAt u clock.month S.toNat M.toNat i))
  have hc := hcos (t.radians (directionAt u clock.month S.toNat M.toNat i))
  have hofflat := offset_within (base_lat u S.toNat M.toNat i)
    (speedAt u S.toNat M.toNat i)
    (t.sin (t.radians (directionAt u clock.month S.toNat M.toNat i))) (-15) 5
    hlat.1 hlat.2 hsp.1 hsp.2 hs.1 hs.2
  have hofflon := offset_within (base_lon u S.toNat M.toNat i)
    (speedAt u S.toNat M.toNat i)
    (t.cos (t.radians (directionAt u clock.month S.toNat M.toNat i))) 39 45
    hlon.1 hlon.2 hsp.1 hsp.2 hc.1 hc.2
  simp only [targetRangeOk, mkMigration]
  refine ⟨⟨?_, ?_⟩, ?_, ?_⟩ <;> linarith [hofflat.1, hofflat.2, hofflon.1, hofflon.2]

theorem generated_targets_within_store_bounds_witness : targetRangeOk M0 :=
  generated_targets_within_store_bounds t0 u0 clock0 1 1 B0
    (fun i => by constructor <;> norm_num [u0])
    (fun x => by constructor <;> norm_num [t0])
    (fun x => by constructor <;> norm_num [t0])
    generate_B0 M0 M0_mem_B0

/-- Claim C6: the generator's bulk write is all-or-nothing — if any
statement of the write script (clearing, any row insert, or the commit
itself) raises before the commit has executed, the exception handler's
rollback leaves the store exactly in its pre-batch state: no row of the
failed batch is visible and the previously committed batch is intact. -/
theorem bulk_write_all_or_nothing (s : Store) (schools : List FishSchool)
    (migs : List Migration) (k : Nat) (hk : k < (genScript schools migs).length) :
    runWithFailure s (genScript schools migs) k = s := by
  have hnc : ∀ st ∈ (genScript schools migs).take k, st ≠ GStep.commitTxn := by
    intro st hst
    have hk' : k ≤ ([GStep.clearAll] ++ schools.map GStep.insertFish ++
        migs.map GStep.insertMig).length := by
      simp [genScript] at hk ⊢
      omega
    rw [genScript, List.take_append_of_le_length hk'] at hst
    have hmem := List.mem_of_mem_take hst
    simp only [List.mem_append, List.mem_singleton, List.mem_map] at hmem
    rcases hmem with (rfl | ⟨r, _, rfl⟩) | ⟨r, _, rfl⟩ <;> simp
  have main : ∀ (l : List GStep), (∀ st ∈ l, st ≠ GStep.commitTxn) →
      ∀ c : Conn, (runSteps c l).committed = c.committed := by
    intro l
    induction l with
    | nil => intro _ c; rfl
    | cons a l ih =>
      intro h c
      have ha := h a (List.mem_cons_self a l)
      have hstep : runSteps c (a :: l) = runSteps (applyStep c a) l := rfl
      rw [hstep, ih (fun st hst => h st (List.mem_cons_of_mem a hst))]
      cases a with
      | clearAll => rfl
      | insertFish r => rfl
      | insertMig r => rfl
      | commitTxn => exact absurd rfl ha
  show (runSteps (beginTxn s) ((genScript schools migs).take k)).committed = s
  rw [main _ hnc (beginTxn s)]
  rfl

/-- Fish-school row used in concrete store witnesses. -/
def F0 : FishSchool := ⟨0, 40, 60⟩

/-- Migration row used in concrete store witnesses. -/
def Mrow0 : Migration := ⟨"Kingfish", 0, 40, 3, 90, 1/10, 201/5, 0⟩

/-- Concrete pre-batch store (one committed batch) for the transaction
witness. -/
def S0 : Store := ⟨[F0], [Mrow0]⟩

theorem bulk_write_all_or_nothing_witness :
    runWithFailure S0 (genScript [F0, F0] [Mrow0]) 2 = S0 :=
  bulk_write_all_or_nothing S0 [F0, F0] [Mrow0] 2 (by simp [genScript])

/-- Claim C4, counterexample: over the single surviving record with
heading 10°, the dominant-direction aggregate returns the coarse
`pd.cut` bin label "N-NE" (eight 45°-wide right-closed bins), not the
record's own 16-label cardinal bucket `direction_to_cardinal 10 = "N"`
— the aggregate is not the mode of `cardinalBucket(heading)`. -/
theorem dominant_direction_not_cardinal_bucket :
    dominant_direction [10] ≠ some (direction_to_cardinal 10) := by
  have h1 : direction_to_cardinal 10 = "N" := by
    have hr : pyRound (10 / 22.5) = 0 := by norm_num [pyRound]
    unfold direction_to_cardinal
    rw [hr]
    rfl
  have h2 : dominant_direction [10] = some "N-NE" := by decide
  rw [h1, h2]
  simp

/-- Claim C4, amended: for every non-empty filtered record set the
dominant-direction aggregate equals the mode of the eight-bin `pd.cut`
assignment of the headings (45°-wide right-closed bins, headings outside
(0,360] dropped), ties broken by the lowest bin index; over a set with
exactly one binned record it returns that record's own bin label. -/
theorem dominant_direction_mode_eight_bins :
    (∀ (dirs : List ℚ) (i : Fin 8),
        0 < binCount dirs i →
        (∀ j : Fin 8, binCount dirs j ≤ binCount dirs i) →
        (∀ j : Fin 8, j < i → binCount dirs j < binCount dirs i) →
        dominant_direction dirs = some (cut_labels.getD i "")) ∧
    (∀ (d : ℚ) (b : Nat), cutBin d = some b →
        dominant_direction [d] = some (cut_labels.getD b "")) := by
  have main : ∀ (dirs : List ℚ) (i : Fin 8),
      0 < binCount dirs i →
      (∀ j : Fin 8, binCount dirs j ≤ binCount dirs i) →
      (∀ j : Fin 8, j < i → binCount dirs j < binCount dirs i) →
      dominant_direction dirs = some (cut_labels.getD i "") := by
    intro dirs i hpos hmax hfirst
    have hmaxEq : maxBinCount dirs = binCount dirs i := by
      apply le_antisymm
      · apply foldr_max_le
        intro x hx
        obtain ⟨j, hj, rfl⟩ := List.mem_map.mp hx
        exact hmax ⟨j, List.mem_range.mp hj⟩
      · exact le_foldr_max _ _ (List.mem_map.mpr ⟨(i : Nat), List.mem_range.mpr i.isLt, rfl⟩)
    unfold dominant_direction
    rw [if_neg (by omega : ¬ maxBinCount dirs = 0)]
    rw [find?_range_first _ 8 (i : Nat) i.isLt (by simp [hmaxEq]) ?_]
    · rfl
    · intro j hj
      have hj8 : j < 8 := lt_trans hj i.isLt
      have hlt := hfirst ⟨j, hj8⟩ (by simpa [Fin.lt_def] using hj)
      have hv : ((⟨j, hj8⟩ : Fin 8) : Nat) = j := rfl
      rw [hv] at hlt
      simp only [decide_eq_false_iff_not]
      omega
  refine ⟨main, ?_⟩
  intro d b hbin
  have hb8 : b < 8 := by
    unfold cutBin at hbin
    split_ifs at hbin <;> injection hbin with h <;> omega
  have hcnt : binCount [d] b = 1 := by
    simp [binCount, List.countP_cons, hbin]
  have hle : ∀ j : Fin 8, binCount [d] (j : Nat) ≤ binCount [d] b := by
    intro j
    have hj1 : binCount [d] (j : Nat) ≤ 1 := List.countP_le_length _
    omega
  have hlt : ∀ j : Fin 8, j < (⟨b, hb8⟩ : Fin 8) → binCount [d] (j : Nat) < binCount [d] b := by
    intro j hj
    have hjb : (j : Nat) < b := by simpa [Fin.lt_def] using hj
    have hne : ¬ (cutBin d = some (j : Nat)) := by
      rw [hbin]
      intro hc
      injection hc with hc
      omega
    have h0 : binCount [d] (j : Nat) = 0 := by
      simp [binCount, List.countP_cons, hne]
    omega
  have hval : ((⟨b, hb8⟩ : Fin 8) : Nat) = b := rfl
  exact main [d] ⟨b, hb8⟩ (by rw [hval, hcnt]; norm_num) hle hlt

theorem dominant_direction_mode_eight_bins_witness :
    dominant_direction [(10 : ℚ)] = some "N-NE" :=
  dominant_direction_mode_eight_bins.2 10 0 (by decide)
